import Mathlib

/-!
Verification development for the AI-Wallet-Algo event-to-alert pipeline.

Shallow embedding of the core logic of the repository:
  * scoring rules and thresholds        (src/src/scoring/rules.js)
  * the scoring engine and alert check  (src/src/scoring/score.js, shipped as src/unnamed/part_002)
  * the LRU deduplication cache         (src/src/utils/dedupe.js)
  * swap-metrics aggregation            (src/src/supabase.js, getSwapMetrics)
  * swap extraction from raw events     (src/src/helius.js, parseSwapTransaction)
  * alert dispatch state update         (src/src/telegram/bot.js, shipped as src/unnamed/part_004)

JavaScript numbers are modelled as rationals (ℚ); every numeric quantity that
flows through the scoring pipeline is either an exact integer or an exact
small-denominator ratio, so ℚ is a faithful carrier.  `undefined`/`null`
fields are modelled as `Option`.  The JavaScript falsy-coalescing operator
`a || b` on numbers treats `0`, `null` and `undefined` as falsy, and on
strings treats `""`, `null` and `undefined` as falsy; `jsOrQ` / `jsStrOr`
below reproduce exactly that.
-/

/-- JavaScript `a || b` for an optional number `a` (0, null, undefined are falsy). -/
def jsOrQ : Option ℚ → ℚ → ℚ
  | some v, b => if v = 0 then b else v
  | none, b => b

/-- JavaScript `a || b` for optional strings ("" , null, undefined are falsy). -/
def jsStrOr : Option String → Option String → Option String
  | some s, b => if s = "" then b else some s
  | none, b => b

/-- JavaScript truthiness of an optional string value. -/
def jsTruthyStr : Option String → Bool
  | some s => s ≠ ""
  | none => false

/-- JavaScript `(a || 0)` for an optional integer. -/
def jsOrInt : Option Int → Int → Int
  | some v, b => if v = 0 then b else v
  | none, b => b

/-! ## Scoring rules (src/src/scoring/rules.js) -/

/-- One tier of a positive-scoring threshold table: `{ min, points, reason }`. -/
structure Tier where
  min : ℚ
  points : Int
  reason : String
deriving DecidableEq, Repr

/-- One tier of a penalty threshold table: `{ min, penalty, reason }`. -/
structure PenaltyTier where
  min : ℚ
  penalty : Int
  reason : String
deriving DecidableEq, Repr

/-- `LIQUIDITY_THRESHOLDS` (rules.js:9-15), in object-literal insertion order. -/
def LIQUIDITY_THRESHOLDS : List Tier :=
  [⟨50000, 25, "LIQ_50K_PLUS"⟩, ⟨20000, 18, "LIQ_20K_PLUS"⟩, ⟨10000, 12, "LIQ_10K_PLUS"⟩,
   ⟨5000, 6, "LIQ_5K_PLUS"⟩, ⟨0, 0, "LIQ_BELOW_5K"⟩]

/-- `UNIQUE_BUYERS_1M_THRESHOLDS` (rules.js:20-26). -/
def UNIQUE_BUYERS_1M_THRESHOLDS : List Tier :=
  [⟨20, 20, "BUYERS_1M_20_PLUS"⟩, ⟨10, 14, "BUYERS_1M_10_PLUS"⟩, ⟨5, 8, "BUYERS_1M_5_PLUS"⟩,
   ⟨2, 4, "BUYERS_1M_2_PLUS"⟩, ⟨0, 0, "BUYERS_1M_BELOW_2"⟩]

/-- `SWAPS_1M_THRESHOLDS` (rules.js:31-37). -/
def SWAPS_1M_THRESHOLDS : List Tier :=
  [⟨40, 15, "SWAPS_1M_40_PLUS"⟩, ⟨20, 10, "SWAPS_1M_20_PLUS"⟩, ⟨10, 6, "SWAPS_1M_10_PLUS"⟩,
   ⟨5, 3, "SWAPS_1M_5_PLUS"⟩, ⟨0, 0, "SWAPS_1M_BELOW_5"⟩]

/-- `VOLUME_1M_THRESHOLDS` (rules.js:42-48). -/
def VOLUME_1M_THRESHOLDS : List Tier :=
  [⟨50000, 10, "VOL_1M_50K_PLUS"⟩, ⟨20000, 7, "VOL_1M_20K_PLUS"⟩, ⟨10000, 4, "VOL_1M_10K_PLUS"⟩,
   ⟨5000, 2, "VOL_1M_5K_PLUS"⟩, ⟨0, 0, "VOL_1M_BELOW_5K"⟩]

/-- `HOLDER_COUNT_THRESHOLDS` (rules.js:53-59). -/
def HOLDER_COUNT_THRESHOLDS : List Tier :=
  [⟨200, 10, "HOLDERS_200_PLUS"⟩, ⟨100, 7, "HOLDERS_100_PLUS"⟩, ⟨50, 4, "HOLDERS_50_PLUS"⟩,
   ⟨20, 2, "HOLDERS_20_PLUS"⟩, ⟨0, 0, "HOLDERS_BELOW_20"⟩]

/-- `UNIQUE_BUYERS_5M_THRESHOLDS` (rules.js:64-70). -/
def UNIQUE_BUYERS_5M_THRESHOLDS : List Tier :=
  [⟨50, 10, "BUYERS_5M_50_PLUS"⟩, ⟨30, 7, "BUYERS_5M_30_PLUS"⟩, ⟨15, 4, "BUYERS_5M_15_PLUS"⟩,
   ⟨5, 2, "BUYERS_5M_5_PLUS"⟩, ⟨0, 0, "BUYERS_5M_BELOW_5"⟩]

/-- `BUY_PRESSURE_THRESHOLDS` (rules.js:76-82); minimums are ratios in [0,1]. -/
def BUY_PRESSURE_THRESHOLDS : List Tier :=
  [⟨7/10, 10, "BUY_PRESSURE_70_PCT"⟩, ⟨6/10, 7, "BUY_PRESSURE_60_PCT"⟩,
   ⟨5/10, 4, "BUY_PRESSURE_50_PCT"⟩, ⟨4/10, 2, "BUY_PRESSURE_40_PCT"⟩,
   ⟨0, 0, "SELL_PRESSURE"⟩]

/-- `TOP10_CONCENTRATION_PENALTIES` (rules.js:89-95). -/
def TOP10_CONCENTRATION_PENALTIES : List PenaltyTier :=
  [⟨80, -25, "TOP10_PCT_80_PLUS_PENALTY"⟩, ⟨70, -18, "TOP10_PCT_70_PLUS_PENALTY"⟩,
   ⟨60, -10, "TOP10_PCT_60_PLUS_PENALTY"⟩, ⟨50, -5, "TOP10_PCT_50_PLUS_PENALTY"⟩,
   ⟨0, 0, "TOP10_PCT_HEALTHY"⟩]

/-- `TOP1_CONCENTRATION_PENALTIES` (rules.js:98-103). -/
def TOP1_CONCENTRATION_PENALTIES : List PenaltyTier :=
  [⟨50, -15, "TOP1_PCT_50_PLUS_PENALTY"⟩, ⟨30, -10, "TOP1_PCT_30_PLUS_PENALTY"⟩,
   ⟨20, -5, "TOP1_PCT_20_PLUS_PENALTY"⟩, ⟨0, 0, "TOP1_PCT_HEALTHY"⟩]

/-- An authority penalty entry `{ penalty, reason, flag }` (rules.js:106-110). -/
structure AuthorityPenalty where
  penalty : Int
  reason : String
  flag : String
deriving DecidableEq, Repr

def AUTHORITY_PENALTIES_MINT_AUTHORITY : AuthorityPenalty :=
  ⟨-10, "MINT_AUTHORITY_PRESENT", "MINT_AUTHORITY_RISK"⟩

def AUTHORITY_PENALTIES_FREEZE_AUTHORITY : AuthorityPenalty :=
  ⟨-10, "FREEZE_AUTHORITY_PRESENT", "FREEZE_AUTHORITY_RISK"⟩

def AUTHORITY_PENALTIES_BOTH_AUTHORITIES : AuthorityPenalty :=
  ⟨-20, "BOTH_AUTHORITIES_PRESENT", "FULL_AUTHORITY_RISK"⟩

/-! Risk-flag rules (rules.js:115-122). -/

def RISK_FLAGS_LOW_LIQUIDITY_threshold : ℚ := 5000
def RISK_FLAGS_LOW_LIQUIDITY_flag : String := "LOW_LIQUIDITY_WARNING"
def RISK_FLAGS_NEW_TOKEN_thresholdMinutes : ℚ := 5
def RISK_FLAGS_NEW_TOKEN_flag : String := "VERY_NEW_TOKEN"
def RISK_FLAGS_LOW_HOLDERS_threshold : ℚ := 10
def RISK_FLAGS_LOW_HOLDERS_flag : String := "LOW_HOLDER_COUNT"
def RISK_FLAGS_NO_VOLUME_threshold : ℚ := 0
def RISK_FLAGS_NO_VOLUME_flag : String := "NO_RECENT_VOLUME"
def RISK_FLAGS_WHALE_CONCENTRATION_threshold : ℚ := 40
def RISK_FLAGS_WHALE_CONCENTRATION_flag : String := "WHALE_CONCENTRATION"
def RISK_FLAGS_RAPID_PRICE_DROP_threshold : ℚ := -30
def RISK_FLAGS_RAPID_PRICE_DROP_flag : String := "RAPID_PRICE_DROP"

/-! ## Threshold evaluation (score.js:257-297) -/

/-- `Object.values(thresholds).sort((a, b) => b.min - a.min)`: stable sort by
descending `min`.  All tables above have pairwise-distinct minimums, so any
correct sort yields the same list. -/
def sortTiersDesc (ts : List Tier) : List Tier :=
  ts.insertionSort (fun a b => b.min ≤ a.min)

def sortPenaltyTiersDesc (ts : List PenaltyTier) : List PenaltyTier :=
  ts.insertionSort (fun a b => b.min ≤ a.min)

/-- `scoreByThreshold` (score.js:257-275): first tier (in descending-min order)
whose minimum the value meets; defaults to the last (lowest) tier.  The
`(0, "")` fallback corresponds to an empty table, which never occurs. -/
def scoreByThreshold (value : ℚ) (thresholds : List Tier) : Int × String :=
  let ordered := sortTiersDesc thresholds
  match ordered.find? (fun t => decide (t.min ≤ value)) with
  | some t => (t.points, t.reason)
  | none =>
    match ordered.getLast? with
    | some lowest => (lowest.points, lowest.reason)
    | none => (0, "")

/-- `penaltyByThreshold` (score.js:280-297): first tier whose minimum the value
meets; defaults to no penalty. -/
def penaltyByThreshold (value : ℚ) (thresholds : List PenaltyTier) : Int × String :=
  let ordered := sortPenaltyTiersDesc thresholds
  match ordered.find? (fun t => decide (t.min ≤ value)) with
  | some t => (t.penalty, t.reason)
  | none => (0, "HEALTHY")

/-! ## Token state data model (inputs of `score`, score.js:21-32) -/

/-- The fields of a `token_metrics` row read by the scoring engine. -/
structure Metrics where
  liquidity_usd : Option ℚ
  unique_buyers_1m : Option ℚ
  swaps_1m : Option ℚ
  volume_usd_1m : Option ℚ
  holder_count : Option ℚ
  unique_buyers_5m : Option ℚ
  buy_volume_usd_1m : Option ℚ
  sell_volume_usd_1m : Option ℚ
  price_change_5m : Option ℚ
deriving DecidableEq, Repr

/-- The fields of a `holder_snapshots` row read by the scoring engine. -/
structure Holders where
  holder_count : Option ℚ
  top10_pct : Option ℚ
  top1_pct : Option ℚ
deriving DecidableEq, Repr

/-- The fields of a token record read by the scoring engine.  `first_seen_at`
is an ISO timestamp in JS; it is modelled by its epoch value in milliseconds
(`new Date(s).getTime()`). -/
structure TokenRec where
  mint_authority : Option String
  freeze_authority : Option String
  first_seen_at : Option ℚ
deriving DecidableEq, Repr

/-- The fields of a pool record read by the scoring engine. -/
structure Pool where
  liquidity_usd : Option ℚ
deriving DecidableEq, Repr

/-- `tokenState` input of `score`: each sub-object may be null/undefined. -/
structure TokenState where
  token : Option TokenRec
  metrics : Option Metrics
  holders : Option Holders
  pool : Option Pool
deriving DecidableEq, Repr

/-- Output of `score` (score.js:246-251).  The `components` object is a
per-factor presentation breakdown assembled from the same tier results that
produce `score` and `reasons`; it is not modelled separately. -/
structure ScoreResult where
  score : Int
  reasons : List String
  risk_flags : List String
deriving DecidableEq, Repr

/-! Field extraction, mirroring the `let` sequence of `score` (score.js:45-151).
Each extraction is the exact JS falsy-coalescing chain. -/

/-- `metrics?.liquidity_usd || pool?.liquidity_usd || 0` (score.js:45). -/
def liquidityUsdOf (x : TokenState) : ℚ :=
  jsOrQ (x.metrics.bind Metrics.liquidity_usd) (jsOrQ (x.pool.bind Pool.liquidity_usd) 0)

/-- `metrics?.unique_buyers_1m || 0` (score.js:57). -/
def uniqueBuyers1mOf (x : TokenState) : ℚ :=
  jsOrQ (x.metrics.bind Metrics.unique_buyers_1m) 0

/-- `metrics?.swaps_1m || 0` (score.js:69). -/
def swaps1mOf (x : TokenState) : ℚ :=
  jsOrQ (x.metrics.bind Metrics.swaps_1m) 0

/-- `metrics?.volume_usd_1m || 0` (score.js:81). -/
def volume1mOf (x : TokenState) : ℚ :=
  jsOrQ (x.metrics.bind Metrics.volume_usd_1m) 0

/-- `holders?.holder_count || metrics?.holder_count || 0` (score.js:93). -/
def holderCountOf (x : TokenState) : ℚ :=
  jsOrQ (x.holders.bind Holders.holder_count) (jsOrQ (x.metrics.bind Metrics.holder_count) 0)

/-- `metrics?.unique_buyers_5m || 0` (score.js:105). -/
def uniqueBuyers5mOf (x : TokenState) : ℚ :=
  jsOrQ (x.metrics.bind Metrics.unique_buyers_5m) 0

/-- `metrics?.buy_volume_usd_1m || 0` (score.js:117). -/
def buyVolOf (x : TokenState) : ℚ :=
  jsOrQ (x.metrics.bind Metrics.buy_volume_usd_1m) 0

/-- `metrics?.sell_volume_usd_1m || 0` (score.js:118). -/
def sellVolOf (x : TokenState) : ℚ :=
  jsOrQ (x.metrics.bind Metrics.sell_volume_usd_1m) 0

/-- `totalVol > 0 ? buyVol / totalVol : 0.5` (score.js:119-120). -/
def buyRatioOf (x : TokenState) : ℚ :=
  if 0 < buyVolOf x + sellVolOf x then buyVolOf x / (buyVolOf x + sellVolOf x) else 1/2

/-- `holders?.top10_pct || 0` (score.js:136). -/
def top10PctOf (x : TokenState) : ℚ :=
  jsOrQ (x.holders.bind Holders.top10_pct) 0

/-- `holders?.top1_pct || 0` (score.js:151). -/
def top1PctOf (x : TokenState) : ℚ :=
  jsOrQ (x.holders.bind Holders.top1_pct) 0

/-- `metrics?.price_change_5m || 0` (score.js:234). -/
def priceChange5mOf (x : TokenState) : ℚ :=
  jsOrQ (x.metrics.bind Metrics.price_change_5m) 0

/-- `token?.mint_authority && token.mint_authority !== null` (score.js:166). -/
def hasMintAuthOf (x : TokenState) : Bool :=
  jsTruthyStr (x.token.bind TokenRec.mint_authority)

/-- `token?.freeze_authority && token.freeze_authority !== null` (score.js:167). -/
def hasFreezeAuthOf (x : TokenState) : Bool :=
  jsTruthyStr (x.token.bind TokenRec.freeze_authority)

/-- Penalty contribution and reason list of the authority block (score.js:169-199). -/
def authorityPenaltyOf (x : TokenState) : Int :=
  if hasMintAuthOf x ∧ hasFreezeAuthOf x then AUTHORITY_PENALTIES_BOTH_AUTHORITIES.penalty
  else if hasMintAuthOf x then AUTHORITY_PENALTIES_MINT_AUTHORITY.penalty
  else if hasFreezeAuthOf x then AUTHORITY_PENALTIES_FREEZE_AUTHORITY.penalty
  else 0

def authorityReasonsOf (x : TokenState) : List String :=
  if hasMintAuthOf x ∧ hasFreezeAuthOf x then [AUTHORITY_PENALTIES_BOTH_AUTHORITIES.reason]
  else if hasMintAuthOf x then [AUTHORITY_PENALTIES_MINT_AUTHORITY.reason]
  else if hasFreezeAuthOf x then [AUTHORITY_PENALTIES_FREEZE_AUTHORITY.reason]
  else []

def authorityFlagsOf (x : TokenState) : List String :=
  if hasMintAuthOf x ∧ hasFreezeAuthOf x then [AUTHORITY_PENALTIES_BOTH_AUTHORITIES.flag]
  else if hasMintAuthOf x then [AUTHORITY_PENALTIES_MINT_AUTHORITY.flag]
  else if hasFreezeAuthOf x then [AUTHORITY_PENALTIES_FREEZE_AUTHORITY.flag]
  else []

/-- `Math.round` (round half toward positive infinity): `⌊x + 1/2⌋`, in the
executable form `Rat.floor`. -/
def mathRound (x : ℚ) : Int := Rat.floor (x + 1/2)

/-- `Math.max` on integers. -/
def jsMax (a b : Int) : Int := if a ≤ b then b else a

/-- `Math.min` on integers. -/
def jsMin (a b : Int) : Int := if a ≤ b then a else b

/-- `score` (score.js:31-252).  `Date.now()` — used only by the VERY_NEW_TOKEN
risk flag (score.js:211-216) — is modelled as the explicit parameter `nowMs`.
The running total is a JS number; every contribution is an integer, carried in
ℚ so that the final `Math.round` (which `mathRound` matches exactly; both
round half toward positive infinity) is applied as in the source. -/
def score (nowMs : ℚ) (x : TokenState) : ScoreResult :=
  let liquidityResult := scoreByThreshold (liquidityUsdOf x) LIQUIDITY_THRESHOLDS
  let buyers1mResult := scoreByThreshold (uniqueBuyers1mOf x) UNIQUE_BUYERS_1M_THRESHOLDS
  let swaps1mResult := scoreByThreshold (swaps1mOf x) SWAPS_1M_THRESHOLDS
  let volume1mResult := scoreByThreshold (volume1mOf x) VOLUME_1M_THRESHOLDS
  let holderResult := scoreByThreshold (holderCountOf x) HOLDER_COUNT_THRESHOLDS
  let buyers5mResult := scoreByThreshold (uniqueBuyers5mOf x) UNIQUE_BUYERS_5M_THRESHOLDS
  let buyPressureResult := scoreByThreshold (buyRatioOf x) BUY_PRESSURE_THRESHOLDS
  let top10Result := penaltyByThreshold (top10PctOf x) TOP10_CONCENTRATION_PENALTIES
  let top1Result := penaltyByThreshold (top1PctOf x) TOP1_CONCENTRATION_PENALTIES
  let top10Pen : Int := if 0 < top10PctOf x then top10Result.1 else 0
  let top1Pen : Int := if 0 < top1PctOf x then top1Result.1 else 0
  let totalScore : ℚ :=
    ((liquidityResult.1 + buyers1mResult.1 + swaps1mResult.1 + volume1mResult.1 +
      holderResult.1 + buyers5mResult.1 + buyPressureResult.1 +
      top10Pen + top1Pen + authorityPenaltyOf x : Int) : ℚ)
  let reasons :=
    [liquidityResult.2, buyers1mResult.2, swaps1mResult.2, volume1mResult.2,
     holderResult.2, buyers5mResult.2, buyPressureResult.2] ++
    (if 0 < top10PctOf x ∧ top10Result.1 < 0 then [top10Result.2] else []) ++
    (if 0 < top1PctOf x ∧ top1Result.1 < 0 then [top1Result.2] else []) ++
    authorityReasonsOf x
  let riskFlags :=
    authorityFlagsOf x ++
    (if liquidityUsdOf x < RISK_FLAGS_LOW_LIQUIDITY_threshold then [RISK_FLAGS_LOW_LIQUIDITY_flag] else []) ++
    (match x.token.bind TokenRec.first_seen_at with
     | some fs =>
       if (nowMs - fs) / 60000 < RISK_FLAGS_NEW_TOKEN_thresholdMinutes
       then [RISK_FLAGS_NEW_TOKEN_flag] else []
     | none => []) ++
    (if holderCountOf x < RISK_FLAGS_LOW_HOLDERS_threshold then [RISK_FLAGS_LOW_HOLDERS_flag] else []) ++
    (if volume1mOf x ≤ RISK_FLAGS_NO_VOLUME_threshold then [RISK_FLAGS_NO_VOLUME_flag] else []) ++
    (if RISK_FLAGS_WHALE_CONCENTRATION_threshold < top1PctOf x then [RISK_FLAGS_WHALE_CONCENTRATION_flag] else []) ++
    (if priceChange5mOf x < RISK_FLAGS_RAPID_PRICE_DROP_threshold then [RISK_FLAGS_RAPID_PRICE_DROP_flag] else [])
  ⟨jsMax 0 (jsMin 100 (mathRound totalScore)), reasons, riskFlags⟩

/-- Arithmetic sum of the seven positive tier contributions of `score`. -/
def posSumOf (x : TokenState) : Int :=
  (scoreByThreshold (liquidityUsdOf x) LIQUIDITY_THRESHOLDS).1 +
  (scoreByThreshold (uniqueBuyers1mOf x) UNIQUE_BUYERS_1M_THRESHOLDS).1 +
  (scoreByThreshold (swaps1mOf x) SWAPS_1M_THRESHOLDS).1 +
  (scoreByThreshold (volume1mOf x) VOLUME_1M_THRESHOLDS).1 +
  (scoreByThreshold (holderCountOf x) HOLDER_COUNT_THRESHOLDS).1 +
  (scoreByThreshold (uniqueBuyers5mOf x) UNIQUE_BUYERS_5M_THRESHOLDS).1 +
  (scoreByThreshold (buyRatioOf x) BUY_PRESSURE_THRESHOLDS).1

/-- Arithmetic sum of all penalty contributions of `score`. -/
def penSumOf (x : TokenState) : Int :=
  (if 0 < top10PctOf x then (penaltyByThreshold (top10PctOf x) TOP10_CONCENTRATION_PENALTIES).1 else 0) +
  (if 0 < top1PctOf x then (penaltyByThreshold (top1PctOf x) TOP1_CONCENTRATION_PENALTIES).1 else 0) +
  authorityPenaltyOf x

/-! ## Alert decision (`shouldAlert`, score.js:302-341) -/

/-- Result of `shouldAlert`: `{ shouldSend, reason }`. -/
structure AlertDecision where
  shouldSend : Bool
  reason : String
deriving DecidableEq, Repr

/-- The three environment-variable thresholds read by `shouldAlert`
(score.js:308-310); the values below are its documented defaults. -/
structure AlertConfig where
  SCORE_THRESHOLD : Int
  SCORE_THRESHOLD_WITH_FLAGS : Int
  SCORE_CHANGE_THRESHOLD : Int
deriving DecidableEq, Repr

def defaultAlertConfig : AlertConfig := ⟨70, 80, 10⟩

/-- `Math.abs` on integers. -/
def mathAbs (x : Int) : Int := if x < 0 then -x else x

/-- `currentFlags.some(f => [...].includes(f))` (score.js:304-306). -/
def hasHardFlags (flags : List String) : Bool :=
  flags.any (fun f =>
    f = "FULL_AUTHORITY_RISK" ∨ f = "MINT_AUTHORITY_RISK" ∨ f = "FREEZE_AUTHORITY_RISK")

/-- `JSON.stringify([...currentFlags].sort()) !== JSON.stringify([...prev].sort())`
(score.js:327-328): JSON encoding of string arrays is injective, so the
comparison is equality of the two sorted copies. -/
def flagsChangedCheck (currentFlags previousRiskFlags : List String) : Bool :=
  decide (currentFlags.insertionSort (· ≤ ·) ≠ previousRiskFlags.insertionSort (· ≤ ·))

/-- `shouldAlert` (score.js:302-341), with the environment thresholds passed
explicitly as `cfg`. -/
def shouldAlert (cfg : AlertConfig) (scoreResult : ScoreResult)
    (previousScore : Option Int) (previousRiskFlags : List String) : AlertDecision :=
  let currentScore := scoreResult.score
  let hard := hasHardFlags scoreResult.risk_flags
  match previousScore with
  | none =>
    if cfg.SCORE_THRESHOLD ≤ currentScore ∧ ¬hard then ⟨true, "NEW_HIGH_SCORE"⟩
    else if cfg.SCORE_THRESHOLD_WITH_FLAGS ≤ currentScore then ⟨true, "NEW_VERY_HIGH_SCORE"⟩
    else ⟨false, "SCORE_BELOW_THRESHOLD"⟩
  | some prev =>
    let scoreDiff : Int := mathAbs (currentScore - prev)
    let flagsChanged := flagsChangedCheck scoreResult.risk_flags previousRiskFlags
    if cfg.SCORE_CHANGE_THRESHOLD ≤ scoreDiff then ⟨true, "SCORE_CHANGE_SIGNIFICANT"⟩
    else if flagsChanged ∧ cfg.SCORE_THRESHOLD ≤ currentScore then ⟨true, "FLAGS_CHANGED"⟩
    else ⟨false, "NO_SIGNIFICANT_CHANGE"⟩

/-! ## Deduplication cache (src/src/utils/dedupe.js)

A JS `Map` iterates in insertion order and every value stored by this module
is the literal `true`, so the cache is modelled by its key list in insertion
order (head = oldest = next to evict). -/

structure LRUCache where
  maxSize : Nat
  cache : List String
deriving DecidableEq, Repr

def LRUCache.empty (maxSize : Nat) : LRUCache := ⟨maxSize, []⟩

/-- `LRUCache.has` (dedupe.js:15-24): membership test that moves a present key
to the most-recently-used end (delete + re-set). -/
def LRUCache.has (c : LRUCache) (key : String) : Bool × LRUCache :=
  if key ∈ c.cache then (true, ⟨c.maxSize, c.cache.erase key ++ [key]⟩)
  else (false, c)

/-- `LRUCache.add` (dedupe.js:26-35): delete a present key, otherwise evict the
oldest key when at capacity; then insert at the most-recently-used end. -/
def LRUCache.add (c : LRUCache) (key : String) : LRUCache :=
  if key ∈ c.cache then ⟨c.maxSize, c.cache.erase key ++ [key]⟩
  else if c.maxSize ≤ c.cache.length then ⟨c.maxSize, c.cache.drop 1 ++ [key]⟩
  else ⟨c.maxSize, c.cache ++ [key]⟩

/-- `hasSeenSignature` (dedupe.js:68-70); the module-level cache is threaded
explicitly. -/
def hasSeenSignature (c : LRUCache) (signature : String) : Bool × LRUCache :=
  c.has signature

/-- `checkAndMarkSignature` (dedupe.js:118-124). -/
def checkAndMarkSignature (c : LRUCache) (signature : String) : Bool × LRUCache :=
  let r := c.has signature
  if r.1 then (false, r.2) else (true, r.2.add signature)

/-- Folding `checkAndMarkSignature` over a list of keys (a call sequence). -/
def insertAll (c : LRUCache) (keys : List String) : LRUCache :=
  keys.foldl (fun acc k => (checkAndMarkSignature acc k).2) c

/-! ## Metrics aggregation (`getSwapMetrics`, src/src/supabase.js:221-324)

The storage query returns the swaps of the trailing 15-minute range; the
aggregation itself is the pure loop modelled here.  Timestamps are epoch
milliseconds (`new Date(ts).getTime()`); `now` and the 1/5-minute cutoffs are
computed once per call. -/

/-- One swap row as selected by the aggregation query (`ts, side, amount_usd,
buyer, seller`). -/
structure SwapRow where
  ts : ℚ
  side : String
  amount_usd : Option ℚ
  buyer : Option String
  seller : Option String
deriving DecidableEq, Repr

/-- The snapshot returned by `getSwapMetrics` (supabase.js:240-256, 309-323).
Unique-participant counts are set cardinalities. -/
structure SwapMetrics where
  swaps_1m : Nat
  swaps_5m : Nat
  swaps_15m : Nat
  unique_buyers_1m : Nat
  unique_buyers_5m : Nat
  unique_buyers_15m : Nat
  unique_sellers_1m : Nat
  unique_sellers_5m : Nat
  volume_usd_1m : ℚ
  volume_usd_5m : ℚ
  volume_usd_15m : ℚ
  buy_volume_usd_1m : ℚ
  sell_volume_usd_1m : ℚ
deriving DecidableEq, Repr

/-- Loop state of the aggregation, with the participant sets still materialised
(supabase.js:259-273). -/
structure SwapMetricsAcc where
  swaps_1m : Nat
  swaps_5m : Nat
  swaps_15m : Nat
  unique_buyers_1m : Finset String
  unique_buyers_5m : Finset String
  unique_buyers_15m : Finset String
  unique_sellers_1m : Finset String
  unique_sellers_5m : Finset String
  volume_usd_1m : ℚ
  volume_usd_5m : ℚ
  volume_usd_15m : ℚ
  buy_volume_usd_1m : ℚ
  sell_volume_usd_1m : ℚ

def swapMetricsAccInit : SwapMetricsAcc :=
  ⟨0, 0, 0, ∅, ∅, ∅, ∅, ∅, 0, 0, 0, 0, 0⟩

/-- `if (swap.buyer) set.add(swap.buyer)`: insert a truthy participant. -/
def addParticipant (s : Finset String) (p : Option String) : Finset String :=
  match p with
  | some w => if w = "" then s else insert w s
  | none => s

/-- One iteration of the aggregation loop (supabase.js:275-307).  Note that the
15-minute block (supabase.js:282-286) adds the seller to `unique_sellers_5m`. -/
def swapMetricsStep (oneMinTime fiveMinTime : ℚ) (m : SwapMetricsAcc) (swap : SwapRow) :
    SwapMetricsAcc :=
  let volume := jsOrQ swap.amount_usd 0
  let m : SwapMetricsAcc :=
    ⟨m.swaps_1m, m.swaps_5m, m.swaps_15m + 1,
     m.unique_buyers_1m, m.unique_buyers_5m, addParticipant m.unique_buyers_15m swap.buyer,
     m.unique_sellers_1m, addParticipant m.unique_sellers_5m swap.seller,
     m.volume_usd_1m, m.volume_usd_5m, m.volume_usd_15m + volume,
     m.buy_volume_usd_1m, m.sell_volume_usd_1m⟩
  let m : SwapMetricsAcc :=
    if fiveMinTime ≤ swap.ts then
      ⟨m.swaps_1m, m.swaps_5m + 1, m.swaps_15m,
       m.unique_buyers_1m, addParticipant m.unique_buyers_5m swap.buyer, m.unique_buyers_15m,
       m.unique_sellers_1m, m.unique_sellers_5m,
       m.volume_usd_1m, m.volume_usd_5m + volume, m.volume_usd_15m,
       m.buy_volume_usd_1m, m.sell_volume_usd_1m⟩
    else m
  if oneMinTime ≤ swap.ts then
    ⟨m.swaps_1m + 1, m.swaps_5m, m.swaps_15m,
     addParticipant m.unique_buyers_1m swap.buyer, m.unique_buyers_5m, m.unique_buyers_15m,
     addParticipant m.unique_sellers_1m swap.seller, m.unique_sellers_5m,
     m.volume_usd_1m + volume, m.volume_usd_5m, m.volume_usd_15m,
     (if swap.side = "buy" then m.buy_volume_usd_1m + volume else m.buy_volume_usd_1m),
     (if swap.side = "sell" then m.sell_volume_usd_1m + volume else m.sell_volume_usd_1m)⟩
  else m

def zeroSwapMetrics : SwapMetrics := ⟨0, 0, 0, 0, 0, 0, 0, 0, 0, 0, 0, 0, 0⟩

/-- `getSwapMetrics` (supabase.js:221-324) on the rows of the trailing
15-minute query, with `now` in epoch milliseconds. -/
def getSwapMetrics (nowMs : ℚ) (swaps : List SwapRow) : SwapMetrics :=
  if swaps = [] then zeroSwapMetrics
  else
    let oneMinTime := nowMs - 60000
    let fiveMinTime := nowMs - 300000
    let m := swaps.foldl (swapMetricsStep oneMinTime fiveMinTime) swapMetricsAccInit
    ⟨m.swaps_1m, m.swaps_5m, m.swaps_15m,
     m.unique_buyers_1m.card, m.unique_buyers_5m.card, m.unique_buyers_15m.card,
     m.unique_sellers_1m.card, m.unique_sellers_5m.card,
     m.volume_usd_1m, m.volume_usd_5m, m.volume_usd_15m,
     m.buy_volume_usd_1m, m.sell_volume_usd_1m⟩

/-! ## Swap extraction (`parseSwapTransaction`, src/src/helius.js:194-300) -/

def WSOL_MINT : String := "So11111111111111111111111111111111111111112"

/-- `STABLECOIN_MINTS` (helius.js:36-39). -/
def STABLECOIN_MINTS : List String :=
  ["EPjFWdd5AufqSSqeM2qN1xzybapC8G4wEGGkZwyTDt1v",
   "Es9vMFrzaCERmJfrF4H2FYD4KCoNkY11McCe8BenwNYB"]

/-- `mint === WSOL_MINT || STABLECOIN_MINTS.has(mint)`: the quote-asset set. -/
def isQuoteMint (m : String) : Bool :=
  m = WSOL_MINT ∨ m ∈ STABLECOIN_MINTS

/-- One entry of `tx.tokenTransfers`.  An absent `mint` behaves exactly like
`""` in every use below (falsy, not a quote asset), so it is folded into the
`String` carrier. -/
structure TokenTransfer where
  mint : String
  tokenAmount : Option ℚ
  fromUserAccount : Option String
  toUserAccount : Option String
deriving DecidableEq, Repr

/-- One entry of `tx.nativeTransfers`. -/
structure NativeTransfer where
  amount : Option ℚ
deriving DecidableEq, Repr

/-- One entry of `events.swap.tokenOutputs` / `tokenInputs`. -/
structure SwapEventLeg where
  mint : String
deriving DecidableEq, Repr

/-- `events.swap.nativeOutput` / `nativeInput`. -/
structure SwapEventAmt where
  amount : Option ℚ
deriving DecidableEq, Repr

/-- `tx.events.swap` (Helius parsed format). -/
structure SwapEvent where
  tokenOutputs : List SwapEventLeg
  tokenInputs : List SwapEventLeg
  nativeOutput : Option SwapEventAmt
  nativeInput : Option SwapEventAmt
deriving DecidableEq, Repr

/-- The fields of a raw transaction read by `parseSwapTransaction`.
`accountData` carries only the account addresses scanned for a pool address,
and `timestamp` is in epoch seconds as delivered by the webhook. -/
structure RawTx where
  signature : Option String
  timestamp : Option ℚ
  feePayer : Option String
  tokenTransfers : List TokenTransfer
  nativeTransfers : List NativeTransfer
  eventsSwap : Option SwapEvent
  accountData : List String
deriving DecidableEq, Repr

/-- The swap record returned by `parseSwapTransaction` (helius.js:283-299).
The `meta` sub-object (provenance strings) is not modelled. -/
structure SwapRecord where
  token_mint : String
  signature : Option String
  ts : ℚ
  side : String
  amount_usd : Option ℚ
  amount_token : Option ℚ
  amount_sol : Option ℚ
  buyer : Option String
  seller : Option String
  pool_address : Option String
deriving DecidableEq, Repr

/-- Mutable locals of the token-transfer loop (helius.js:199-235). -/
structure SwapParseAcc where
  tokenMint : Option String
  side : String
  amountToken : Option ℚ
  amountSol : Option ℚ
  buyer : Option String
  seller : Option String
deriving DecidableEq, Repr

def swapParseAccInit : SwapParseAcc := ⟨none, "unknown", none, none, none, none⟩

/-- One iteration of the `tokenTransfers` loop (helius.js:210-234).  A quote
transfer may update `amountSol`; a non-quote transfer overwrites the
provisional subject mint and classifies the side against the fee payer.
`parseFloat(x) || null` maps 0/absent to null. -/
def swapTransferStep (feePayer : Option String) (acc : SwapParseAcc) (t : TokenTransfer) :
    SwapParseAcc :=
  if isQuoteMint t.mint then
    match t.tokenAmount with
    | some a =>
      if a = 0 then acc
      else ⟨acc.tokenMint, acc.side, acc.amountToken, some a, acc.buyer, acc.seller⟩
    | none => acc
  else
    let amtTok : Option ℚ :=
      match t.tokenAmount with
      | some a => if a = 0 then none else some a
      | none => none
    if t.toUserAccount = feePayer then
      ⟨some t.mint, "buy", amtTok, acc.amountSol, feePayer, acc.seller⟩
    else if t.fromUserAccount = feePayer then
      ⟨some t.mint, "sell", amtTok, acc.amountSol, acc.buyer, feePayer⟩
    else
      ⟨some t.mint, acc.side, amtTok, acc.amountSol, acc.buyer, acc.seller⟩

/-- `totalSol` accumulation over `nativeTransfers` (helius.js:238-244):
`if (transfer.amount) totalSol += Math.abs(transfer.amount)`. -/
def totalSolOf (ns : List NativeTransfer) : ℚ :=
  ns.foldl (fun acc n =>
    match n.amount with
    | some a => if a = 0 then acc else acc + |a|
    | none => acc) 0

/-- `isDexPool` (helius.js:425-429) is a placeholder that always returns
false. -/
def isDexPool (_address : String) : Bool := false

/-- Truthiness of `events.swap.nativeOutput?.amount` and the input analogue. -/
def truthySwapAmt : Option SwapEventAmt → Bool
  | some o => match o.amount with | some a => a ≠ 0 | none => false
  | none => false

/-- `parseSwapTransaction` (helius.js:194-300).  `new Date()` (used only when
the webhook supplies no timestamp) is the explicit parameter `nowMs`. -/
def parseSwapTransaction (nowMs : ℚ) (tx : RawTx) : Option SwapRecord :=
  let ts : ℚ := match tx.timestamp with | some t => t * 1000 | none => nowMs
  let acc := tx.tokenTransfers.foldl (swapTransferStep tx.feePayer) swapParseAccInit
  let totalSol := totalSolOf tx.nativeTransfers
  let amountSol : Option ℚ :=
    if 0 < totalSol ∧ acc.amountSol = none then some (totalSol / 1000000000) else acc.amountSol
  let tokenMint : Option String :=
    match tx.eventsSwap with
    | some ev =>
      jsStrOr (jsStrOr acc.tokenMint ((ev.tokenOutputs.head?).map SwapEventLeg.mint))
        ((ev.tokenInputs.head?).map SwapEventLeg.mint)
    | none => acc.tokenMint
  let side : String :=
    match tx.eventsSwap with
    | some ev =>
      if truthySwapAmt ev.nativeOutput then "sell"
      else if truthySwapAmt ev.nativeInput then "buy"
      else acc.side
    | none => acc.side
  let buyer : Option String :=
    match tx.eventsSwap with
    | some ev =>
      if truthySwapAmt ev.nativeOutput then acc.buyer
      else if truthySwapAmt ev.nativeInput then tx.feePayer
      else acc.buyer
    | none => acc.buyer
  let seller : Option String :=
    match tx.eventsSwap with
    | some ev => if truthySwapAmt ev.nativeOutput then tx.feePayer else acc.seller
    | none => acc.seller
  let poolAddress : Option String :=
    (tx.accountData.find? (fun a => isDexPool a))
  match tokenMint with
  | none => none
  | some m =>
    if m = "" then none
    else if isQuoteMint m then none
    else some ⟨m, tx.signature, ts, side, none, acc.amountToken, amountSol,
               buyer, seller, poolAddress⟩

/-- The mint of the last transfer whose asset is outside the quote set —
stated independently of the extraction loop, via `filter`/`getLast?`. -/
def lastNonQuoteMint (ts : List TokenTransfer) : Option String :=
  ((ts.filter (fun t => ¬ isQuoteMint t.mint)).getLast?).map TokenTransfer.mint

/-- The `events.swap` fallback subject: first parsed output mint, else first
parsed input mint (helius.js:253). -/
def swapEventFallbackMint (tx : RawTx) : Option String :=
  match tx.eventsSwap with
  | some ev =>
    jsStrOr ((ev.tokenOutputs.head?).map SwapEventLeg.mint)
      ((ev.tokenInputs.head?).map SwapEventLeg.mint)
  | none => none

/-- Specification-side description of the subject-token outcome of swap
extraction: the LAST non-quote transfer's mint (falling back to the parsed
swap-event mints), discarded when missing/falsy or itself a quote asset. -/
def specSubjectResult (tx : RawTx) : Option String :=
  match jsStrOr (lastNonQuoteMint tx.tokenTransfers) (swapEventFallbackMint tx) with
  | some m => if m = "" ∨ isQuoteMint m then none else some m
  | none => none

/-! ## Alert dispatch state update (`sendTokenAlert`, src/src/telegram/bot.js:286-349) -/

/-- The per-token alert row (`getOrCreateAlert` / `updateAlert`). -/
structure AlertRecord where
  last_score : Option Int
  last_sent_at : Option ℚ
  telegram_message_id : Option String
  telegram_chat_id : Option String
  alert_count : Option Int
  last_risk_flags : Option (List String)
deriving DecidableEq, Repr

/-- The environment and collaborator responses observed by one
`sendTokenAlert` call: the configured chat id, the alert kill-switch, and the
message ids returned by `editMessage` / `sendMessage` (`none` models a failed
call, which those wrappers turn into `null`, bot.js:237-281). -/
structure DispatchEnv where
  chatId : Option String
  alertsEnabled : Bool
  editResult : Option String
  sendResult : Option String
deriving DecidableEq, Repr

/-- State effect of `sendTokenAlert` (bot.js:286-349) on the alert row: the
row is rewritten only when a send or edit produced a message (bot.js:329-337);
every other path — missing chat id, alerts disabled, failed edit with failed
fallback send, failed send — leaves the row as it was. -/
def sendTokenAlert (env : DispatchEnv) (alert : AlertRecord) (scoreResult : ScoreResult)
    (nowMs : ℚ) : AlertRecord :=
  if ¬ jsTruthyStr env.chatId then alert
  else if ¬ env.alertsEnabled then alert
  else
    let isUpdate := alert.last_score ≠ none ∧ jsTruthyStr alert.telegram_message_id
    let result : Option String :=
      if isUpdate then
        match env.editResult with
        | some mid => some mid
        | none => env.sendResult
      else env.sendResult
    match result with
    | some mid =>
      ⟨some scoreResult.score, some nowMs, some mid, env.chatId,
       some (jsOrInt alert.alert_count 0 + 1), some scoreResult.risk_flags⟩
    | none => alert

/-- The alert step of `scoreToken` (src/src/workers/score_worker.js:137-153,
shipped as src/unnamed/part_000): `sendTokenAlert` runs only when the decision
is to send; on Suppress the alert row is not touched at all. -/
def processAlertTransition (env : DispatchEnv) (cfg : AlertConfig) (alert : AlertRecord)
    (scoreResult : ScoreResult) (nowMs : ℚ) : AlertRecord :=
  let alertCheck := shouldAlert cfg scoreResult alert.last_score
    ((alert.last_risk_flags).getD [])
  if alertCheck.shouldSend then sendTokenAlert env alert scoreResult nowMs else alert

/-! ## Concrete inputs used by the scenario and counterexample theorems -/

/-- Scenario A of the specification: metrics
`{liquidity_usd: 60000, unique_buyers_1m: 25, swaps_1m: 50, volume_usd_1m:
60000, holder_count: 250, unique_buyers_5m: 60, buy_volume_usd_1m: 42000,
sell_volume_usd_1m: 18000}`, no authorities, no concentration data. -/
def scenarioA : TokenState :=
  ⟨none,
   some ⟨some 60000, some 25, some 50, some 60000, some 250, some 60, some 42000, some 18000, none⟩,
   none, none⟩

/-- A metrics row with every field absent. -/
def emptyMetrics : Metrics := ⟨none, none, none, none, none, none, none, none, none⟩

/-- A metrics row with every field explicitly zero. -/
def zeroMetrics : Metrics :=
  ⟨some 0, some 0, some 0, some 0, some 0, some 0, some 0, some 0, some 0⟩

/-- A swap-classified transaction carrying two transfers of different
non-quote assets: "MemeA" first, "MemeB" second. -/
def txTwoSubjects : RawTx :=
  ⟨some "sig1", some 1, some "payer",
   [⟨"MemeA", some 1, none, some "payer"⟩, ⟨"MemeB", some 2, none, some "payer"⟩],
   [], none, []⟩

/-- A swap row 10 minutes old (ts 0 at `now` = 600000 ms) with a seller. -/
def oldSellRow : SwapRow := ⟨0, "sell", some 5, none, some "S"⟩

/-! ## Helper lemmas -/

theorem mathRound_eq_round (x : ℚ) : mathRound x = round x := by
  rw [mathRound, round_eq, Rat.floor_def', ← Rat.floor_def]

theorem jsMax_eq (a b : Int) : jsMax a b = max a b := by
  unfold jsMax
  split_ifs with h
  · exact (max_eq_right h).symm
  · exact (max_eq_left (le_of_not_le h)).symm

theorem jsMin_eq (a b : Int) : jsMin a b = min a b := by
  rw [jsMin, min_def]

theorem mathAbs_eq_abs (x : Int) : mathAbs x = |x| := by
  unfold mathAbs
  split_ifs with h
  · exact (abs_of_neg h).symm
  · exact (abs_of_nonneg (not_lt.mp h)).symm

theorem scoreByThreshold_LIQ (v : ℚ) :
    scoreByThreshold v LIQUIDITY_THRESHOLDS =
      if 50000 ≤ v then (25, "LIQ_50K_PLUS")
      else if 20000 ≤ v then (18, "LIQ_20K_PLUS")
      else if 10000 ≤ v then (12, "LIQ_10K_PLUS")
      else if 5000 ≤ v then (6, "LIQ_5K_PLUS")
      else (0, "LIQ_BELOW_5K") := by
  have hs : sortTiersDesc LIQUIDITY_THRESHOLDS = LIQUIDITY_THRESHOLDS := by rfl
  rw [scoreByThreshold, hs, LIQUIDITY_THRESHOLDS]
  by_cases h1 : (50000 : ℚ) ≤ v <;> by_cases h2 : (20000 : ℚ) ≤ v <;>
    by_cases h3 : (10000 : ℚ) ≤ v <;> by_cases h4 : (5000 : ℚ) ≤ v <;>
    by_cases h5 : (0 : ℚ) ≤ v <;>
    simp [List.find?, h1, h2, h3, h4, h5]

theorem scoreByThreshold_BUYERS1M (v : ℚ) :
    scoreByThreshold v UNIQUE_BUYERS_1M_THRESHOLDS =
      if 20 ≤ v then (20, "BUYERS_1M_20_PLUS")
      else if 10 ≤ v then (14, "BUYERS_1M_10_PLUS")
      else if 5 ≤ v then (8, "BUYERS_1M_5_PLUS")
      else if 2 ≤ v then (4, "BUYERS_1M_2_PLUS")
      else (0, "BUYERS_1M_BELOW_2") := by
  have hs : sortTiersDesc UNIQUE_BUYERS_1M_THRESHOLDS = UNIQUE_BUYERS_1M_THRESHOLDS := by rfl
  rw [scoreByThreshold, hs, UNIQUE_BUYERS_1M_THRESHOLDS]
  by_cases h1 : (20 : ℚ) ≤ v <;> by_cases h2 : (10 : ℚ) ≤ v <;>
    by_cases h3 : (5 : ℚ) ≤ v <;> by_cases h4 : (2 : ℚ) ≤ v <;>
    by_cases h5 : (0 : ℚ) ≤ v <;>
    simp [List.find?, h1, h2, h3, h4, h5]

theorem scoreByThreshold_SWAPS1M (v : ℚ) :
    scoreByThreshold v SWAPS_1M_THRESHOLDS =
      if 40 ≤ v then (15, "SWAPS_1M_40_PLUS")
      else if 20 ≤ v then (10, "SWAPS_1M_20_PLUS")
      else if 10 ≤ v then (6, "SWAPS_1M_10_PLUS")
      else if 5 ≤ v then (3, "SWAPS_1M_5_PLUS")
      else (0, "SWAPS_1M_BELOW_5") := by
  have hs : sortTiersDesc SWAPS_1M_THRESHOLDS = SWAPS_1M_THRESHOLDS := by rfl
  rw [scoreByThreshold, hs, SWAPS_1M_THRESHOLDS]
  by_cases h1 : (40 : ℚ) ≤ v <;> by_cases h2 : (20 : ℚ) ≤ v <;>
    by_cases h3 : (10 : ℚ) ≤ v <;> by_cases h4 : (5 : ℚ) ≤ v <;>
    by_cases h5 : (0 : ℚ) ≤ v <;>
    simp [List.find?, h1, h2, h3, h4, h5]

theorem scoreByThreshold_VOL1M (v : ℚ) :
    scoreByThreshold v VOLUME_1M_THRESHOLDS =
      if 50000 ≤ v then (10, "VOL_1M_50K_PLUS")
      else if 20000 ≤ v then (7, "VOL_1M_20K_PLUS")
      else if 10000 ≤ v then (4, "VOL_1M_10K_PLUS")
      else if 5000 ≤ v then (2, "VOL_1M_5K_PLUS")
      else (0, "VOL_1M_BELOW_5K") := by
  have hs : sortTiersDesc VOLUME_1M_THRESHOLDS = VOLUME_1M_THRESHOLDS := by rfl
  rw [scoreByThreshold, hs, VOLUME_1M_THRESHOLDS]
  by_cases h1 : (50000 : ℚ) ≤ v <;> by_cases h2 : (20000 : ℚ) ≤ v <;>
    by_cases h3 : (10000 : ℚ) ≤ v <;> by_cases h4 : (5000 : ℚ) ≤ v <;>
    by_cases h5 : (0 : ℚ) ≤ v <;>
    simp [List.find?, h1, h2, h3, h4, h5]

theorem scoreByThreshold_HOLDERS (v : ℚ) :
    scoreByThreshold v HOLDER_COUNT_THRESHOLDS =
      if 200 ≤ v then (10, "HOLDERS_200_PLUS")
      else if 100 ≤ v then (7, "HOLDERS_100_PLUS")
      else if 50 ≤ v then (4, "HOLDERS_50_PLUS")
      else if 20 ≤ v then (2, "HOLDERS_20_PLUS")
      else (0, "HOLDERS_BELOW_20") := by
  have hs : sortTiersDesc HOLDER_COUNT_THRESHOLDS = HOLDER_COUNT_THRESHOLDS := by rfl
  rw [scoreByThreshold, hs, HOLDER_COUNT_THRESHOLDS]
  by_cases h1 : (200 : ℚ) ≤ v <;> by_cases h2 : (100 : ℚ) ≤ v <;>
    by_cases h3 : (50 : ℚ) ≤ v <;> by_cases h4 : (20 : ℚ) ≤ v <;>
    by_cases h5 : (0 : ℚ) ≤ v <;>
    simp [List.find?, h1, h2, h3, h4, h5]

theorem scoreByThreshold_BUYERS5M (v : ℚ) :
    scoreByThreshold v UNIQUE_BUYERS_5M_THRESHOLDS =
      if 50 ≤ v then (10, "BUYERS_5M_50_PLUS")
      else if 30 ≤ v then (7, "BUYERS_5M_30_PLUS")
      else if 15 ≤ v then (4, "BUYERS_5M_15_PLUS")
      else if 5 ≤ v then (2, "BUYERS_5M_5_PLUS")
      else (0, "BUYERS_5M_BELOW_5") := by
  have hs : sortTiersDesc UNIQUE_BUYERS_5M_THRESHOLDS = UNIQUE_BUYERS_5M_THRESHOLDS := by rfl
  rw [scoreByThreshold, hs, UNIQUE_BUYERS_5M_THRESHOLDS]
  by_cases h1 : (50 : ℚ) ≤ v <;> by_cases h2 : (30 : ℚ) ≤ v <;>
    by_cases h3 : (15 : ℚ) ≤ v <;> by_cases h4 : (5 : ℚ) ≤ v <;>
    by_cases h5 : (0 : ℚ) ≤ v <;>
    simp [List.find?, h1, h2, h3, h4, h5]

theorem scoreByThreshold_BUYP (v : ℚ) :
    scoreByThreshold v BUY_PRESSURE_THRESHOLDS =
      if 7/10 ≤ v then (10, "BUY_PRESSURE_70_PCT")
      else if 6/10 ≤ v then (7, "BUY_PRESSURE_60_PCT")
      else if 5/10 ≤ v then (4, "BUY_PRESSURE_50_PCT")
      else if 4/10 ≤ v then (2, "BUY_PRESSURE_40_PCT")
      else (0, "SELL_PRESSURE") := by
  have hs : sortTiersDesc BUY_PRESSURE_THRESHOLDS = BUY_PRESSURE_THRESHOLDS := by
    rw [BUY_PRESSURE_THRESHOLDS]
    norm_num [sortTiersDesc, List.insertionSort, List.orderedInsert]
  rw [scoreByThreshold, hs, BUY_PRESSURE_THRESHOLDS]
  by_cases h1 : (7 : ℚ)/10 ≤ v <;> by_cases h2 : (6 : ℚ)/10 ≤ v <;>
    by_cases h3 : (5 : ℚ)/10 ≤ v <;> by_cases h4 : (4 : ℚ)/10 ≤ v <;>
    by_cases h5 : (0 : ℚ) ≤ v <;>
    simp [List.find?, h1, h2, h3, h4, h5]

theorem penaltyByThreshold_TOP10 (v : ℚ) :
    penaltyByThreshold v TOP10_CONCENTRATION_PENALTIES =
      if 80 ≤ v then (-25, "TOP10_PCT_80_PLUS_PENALTY")
      else if 70 ≤ v then (-18, "TOP10_PCT_70_PLUS_PENALTY")
      else if 60 ≤ v then (-10, "TOP10_PCT_60_PLUS_PENALTY")
      else if 50 ≤ v then (-5, "TOP10_PCT_50_PLUS_PENALTY")
      else if 0 ≤ v then (0, "TOP10_PCT_HEALTHY")
      else (0, "HEALTHY") := by
  have hs : sortPenaltyTiersDesc TOP10_CONCENTRATION_PENALTIES = TOP10_CONCENTRATION_PENALTIES := by
    rfl
  rw [penaltyByThreshold, hs, TOP10_CONCENTRATION_PENALTIES]
  by_cases h1 : (80 : ℚ) ≤ v <;> by_cases h2 : (70 : ℚ) ≤ v <;>
    by_cases h3 : (60 : ℚ) ≤ v <;> by_cases h4 : (50 : ℚ) ≤ v <;>
    by_cases h5 : (0 : ℚ) ≤ v <;>
    simp [List.find?, h1, h2, h3, h4, h5]

theorem penaltyByThreshold_TOP1 (v : ℚ) :
    penaltyByThreshold v TOP1_CONCENTRATION_PENALTIES =
      if 50 ≤ v then (-15, "TOP1_PCT_50_PLUS_PENALTY")
      else if 30 ≤ v then (-10, "TOP1_PCT_30_PLUS_PENALTY")
      else if 20 ≤ v then (-5, "TOP1_PCT_20_PLUS_PENALTY")
      else if 0 ≤ v then (0, "TOP1_PCT_HEALTHY")
      else (0, "HEALTHY") := by
  have hs : sortPenaltyTiersDesc TOP1_CONCENTRATION_PENALTIES = TOP1_CONCENTRATION_PENALTIES := by
    rfl
  rw [penaltyByThreshold, hs, TOP1_CONCENTRATION_PENALTIES]
  by_cases h1 : (50 : ℚ) ≤ v <;> by_cases h2 : (30 : ℚ) ≤ v <;>
    by_cases h3 : (20 : ℚ) ≤ v <;> by_cases h4 : (0 : ℚ) ≤ v <;>
    simp [List.find?, h1, h2, h3, h4]

/-- The final-score expression of `score`, in `max`/`min` vocabulary. -/
theorem score_score_eq (nowMs : ℚ) (x : TokenState) :
    (score nowMs x).score = max 0 (min 100 (posSumOf x + penSumOf x)) := by
  simp only [score, posSumOf, penSumOf, mathRound_eq_round, jsMax_eq, jsMin_eq, round_intCast]
  congr 2
  ring

/-- C1 -- For every token state, the score is the integer obtained by summing
the seven tiered positive components with all penalty contributions, rounding
to the nearest integer, and clamping to [0, 100]; on the scenario-A input the
score is exactly 100. -/
theorem score_is_clamped_rounded_component_sum :
    (∀ (nowMs : ℚ) (x : TokenState),
        (score nowMs x).score =
          max 0 (min 100 (round ((posSumOf x + penSumOf x : Int) : ℚ)))) ∧
    (score 0 scenarioA).score = 100 := by
  constructor
  · intro nowMs x
    rw [score_score_eq, round_intCast]
  · rw [score_score_eq]
    have h1 : posSumOf scenarioA = 100 := by
      norm_num [posSumOf, scoreByThreshold_LIQ, scoreByThreshold_BUYERS1M,
        scoreByThreshold_SWAPS1M, scoreByThreshold_VOL1M, scoreByThreshold_HOLDERS,
        scoreByThreshold_BUYERS5M, scoreByThreshold_BUYP, liquidityUsdOf, uniqueBuyers1mOf,
        swaps1mOf, volume1mOf, holderCountOf, uniqueBuyers5mOf, buyRatioOf, buyVolOf,
        sellVolOf, jsOrQ, scenarioA]
    have h2 : penSumOf scenarioA = 0 := by
      norm_num [penSumOf, top10PctOf, top1PctOf, authorityPenaltyOf, hasMintAuthOf,
        hasFreezeAuthOf, jsTruthyStr, jsOrQ, scenarioA]
    rw [h1, h2]
    rfl

/-- C7 -- For a fixed input, the scoring engine is deterministic: its numeric
score and reasons list do not depend on the ambient clock at all, and at any
one instant the whole result (risk flags included) is a function of the
input. -/
theorem score_deterministic_clock_independent :
    ∀ (x : TokenState) (t1 t2 : ℚ),
      (score t1 x).score = (score t2 x).score ∧
      (score t1 x).reasons = (score t2 x).reasons ∧
      score t1 x = score t1 x := by
  intro x t1 t2
  exact ⟨rfl, rfl, rfl⟩

/-- C10 -- The scoring engine is total on token states with any combination of
missing sub-objects or fields (the embedding is a total function; every
access is `?.`/`|| 0`-guarded in the source): the result is always a
well-formed score in [0, 100]; a wholly absent metrics object behaves exactly
like an explicitly-zero one; and when the 1-minute buy+sell volume is zero the
buy-pressure ratio defaults to 1/2, which lands in the 4-point NEUTRAL tier. -/
theorem score_total_and_null_safe :
    (∀ (nowMs : ℚ) (x : TokenState),
        0 ≤ (score nowMs x).score ∧ (score nowMs x).score ≤ 100) ∧
    (∀ (nowMs : ℚ) (tok : Option TokenRec) (hold : Option Holders) (pl : Option Pool),
        score nowMs ⟨tok, none, hold, pl⟩ = score nowMs ⟨tok, some emptyMetrics, hold, pl⟩ ∧
        score nowMs ⟨tok, none, hold, pl⟩ = score nowMs ⟨tok, some zeroMetrics, hold, pl⟩) ∧
    (∀ x : TokenState, buyVolOf x + sellVolOf x = 0 →
        buyRatioOf x = 1/2 ∧
        (scoreByThreshold (buyRatioOf x) BUY_PRESSURE_THRESHOLDS).1 = 4) := by
  refine ⟨?_, ?_, ?_⟩
  · intro nowMs x
    rw [score_score_eq]
    constructor
    · exact le_max_left 0 _
    · exact max_le (by norm_num) (min_le_left 100 _)
  · intro nowMs tok hold pl
    exact ⟨rfl, rfl⟩
  · intro x h
    have hr : buyRatioOf x = 1/2 := by
      rw [buyRatioOf, h]
      norm_num
    refine ⟨hr, ?_⟩
    rw [hr, scoreByThreshold_BUYP]
    norm_num

/-- Witness for `score_total_and_null_safe`: the zero-volume default is
exercised on a state with no metrics at all. -/
theorem score_total_and_null_safe_witness :
    buyVolOf ⟨none, none, none, none⟩ + sellVolOf ⟨none, none, none, none⟩ = 0 ∧
    buyRatioOf ⟨none, none, none, none⟩ = 1/2 ∧
    (scoreByThreshold (buyRatioOf ⟨none, none, none, none⟩) BUY_PRESSURE_THRESHOLDS).1 = 4 := by
  have h : buyVolOf ⟨none, none, none, none⟩ + sellVolOf ⟨none, none, none, none⟩ = 0 := by
    norm_num [buyVolOf, sellVolOf, jsOrQ]
  have h2 := score_total_and_null_safe.2.2 ⟨none, none, none, none⟩ h
  exact ⟨h, h2.1, h2.2⟩

set_option maxHeartbeats 1000000 in
/-- C8 -- Tier monotonicity: for each positive-scoring table, a larger input
never earns fewer points; for each concentration-penalty table, a larger input
never shrinks the (nonpositive) penalty's magnitude. -/
theorem threshold_tables_monotone :
    ∀ (v w : ℚ), v ≤ w →
      (scoreByThreshold v LIQUIDITY_THRESHOLDS).1 ≤ (scoreByThreshold w LIQUIDITY_THRESHOLDS).1 ∧
      (scoreByThreshold v UNIQUE_BUYERS_1M_THRESHOLDS).1 ≤ (scoreByThreshold w UNIQUE_BUYERS_1M_THRESHOLDS).1 ∧
      (scoreByThreshold v SWAPS_1M_THRESHOLDS).1 ≤ (scoreByThreshold w SWAPS_1M_THRESHOLDS).1 ∧
      (scoreByThreshold v VOLUME_1M_THRESHOLDS).1 ≤ (scoreByThreshold w VOLUME_1M_THRESHOLDS).1 ∧
      (scoreByThreshold v HOLDER_COUNT_THRESHOLDS).1 ≤ (scoreByThreshold w HOLDER_COUNT_THRESHOLDS).1 ∧
      (scoreByThreshold v UNIQUE_BUYERS_5M_THRESHOLDS).1 ≤ (scoreByThreshold w UNIQUE_BUYERS_5M_THRESHOLDS).1 ∧
      (scoreByThreshold v BUY_PRESSURE_THRESHOLDS).1 ≤ (scoreByThreshold w BUY_PRESSURE_THRESHOLDS).1 ∧
      ((penaltyByThreshold w TOP10_CONCENTRATION_PENALTIES).1 ≤ (penaltyByThreshold v TOP10_CONCENTRATION_PENALTIES).1 ∧
        (penaltyByThreshold v TOP10_CONCENTRATION_PENALTIES).1 ≤ 0 ∧
        (penaltyByThreshold v TOP10_CONCENTRATION_PENALTIES).1.natAbs ≤ (penaltyByThreshold w TOP10_CONCENTRATION_PENALTIES).1.natAbs) ∧
      ((penaltyByThreshold w TOP1_CONCENTRATION_PENALTIES).1 ≤ (penaltyByThreshold v TOP1_CONCENTRATION_PENALTIES).1 ∧
        (penaltyByThreshold v TOP1_CONCENTRATION_PENALTIES).1 ≤ 0 ∧
        (penaltyByThreshold v TOP1_CONCENTRATION_PENALTIES).1.natAbs ≤ (penaltyByThreshold w TOP1_CONCENTRATION_PENALTIES).1.natAbs) := by
  intro v w h
  refine ⟨?_, ?_, ?_, ?_, ?_, ?_, ?_, ?_, ?_⟩
  · simp only [scoreByThreshold_LIQ]
    split_ifs <;> first | omega | linarith
  · simp only [scoreByThreshold_BUYERS1M]
    split_ifs <;> first | omega | linarith
  · simp only [scoreByThreshold_SWAPS1M]
    split_ifs <;> first | omega | linarith
  · simp only [scoreByThreshold_VOL1M]
    split_ifs <;> first | omega | linarith
  · simp only [scoreByThreshold_HOLDERS]
    split_ifs <;> first | omega | linarith
  · simp only [scoreByThreshold_BUYERS5M]
    split_ifs <;> first | omega | linarith
  · simp only [scoreByThreshold_BUYP]
    split_ifs <;> first | omega | linarith
  · refine ⟨?_, ?_, ?_⟩ <;> simp only [penaltyByThreshold_TOP10] <;>
      split_ifs <;> first | omega | linarith
  · refine ⟨?_, ?_, ?_⟩ <;> simp only [penaltyByThreshold_TOP1] <;>
      split_ifs <;> first | omega | linarith

/-- Witness for `threshold_tables_monotone` at the pair 30 ≤ 85. -/
theorem threshold_tables_monotone_witness :
    (30 : ℚ) ≤ 85 ∧
    ((scoreByThreshold 30 LIQUIDITY_THRESHOLDS).1 ≤ (scoreByThreshold 85 LIQUIDITY_THRESHOLDS).1 ∧
      (penaltyByThreshold 85 TOP10_CONCENTRATION_PENALTIES).1 ≤ (penaltyByThreshold 30 TOP10_CONCENTRATION_PENALTIES).1) := by
  have h : (30 : ℚ) ≤ 85 := by norm_num
  have hm := threshold_tables_monotone 30 85 h
  exact ⟨h, hm.1, hm.2.2.2.2.2.2.2.1.1⟩

/-- Sorting with `insertionSort` is a canonical form: two string lists sort
equally exactly when they are permutations of one another. -/
theorem insertionSort_eq_iff_perm (c p : List String) :
    c.insertionSort (· ≤ ·) = p.insertionSort (· ≤ ·) ↔ List.Perm c p := by
  constructor
  · intro h
    have h1 := List.perm_insertionSort (fun a b : String => a ≤ b) c
    have h2 := List.perm_insertionSort (fun a b : String => a ≤ b) p
    rw [h] at h1
    exact h1.symm.trans h2
  · intro h
    have h1 := List.perm_insertionSort (fun a b : String => a ≤ b) c
    have h2 := List.perm_insertionSort (fun a b : String => a ≤ b) p
    exact List.eq_of_perm_of_sorted (h1.trans (h.trans h2.symm))
      (List.sorted_insertionSort _ c) (List.sorted_insertionSort _ p)

/-- The sorted-serialization comparison of `shouldAlert` is the
order-independent comparison of the two flag collections. -/
theorem flagsChangedCheck_iff (c p : List String) :
    flagsChangedCheck c p = true ↔ ¬ List.Perm c p := by
  rw [flagsChangedCheck, decide_eq_true_iff]
  exact not_congr (insertionSort_eq_iff_perm c p)

/-- `hasHardFlags` detects exactly the three authority risk flags. -/
theorem hasHardFlags_iff (l : List String) :
    hasHardFlags l = true ↔
      ("FULL_AUTHORITY_RISK" ∈ l ∨ "MINT_AUTHORITY_RISK" ∈ l ∨ "FREEZE_AUTHORITY_RISK" ∈ l) := by
  simp only [hasHardFlags, List.any_eq_true, decide_eq_true_iff]
  constructor
  · rintro ⟨x, hx, hor⟩
    rcases hor with h | h | h <;> subst h <;> tauto
  · rintro (h | h | h)
    · exact ⟨_, h, Or.inl rfl⟩
    · exact ⟨_, h, Or.inr (Or.inl rfl)⟩
    · exact ⟨_, h, Or.inr (Or.inr rfl)⟩

/-- C2 -- With the default thresholds (70 / 80 / 10): an Unalerted token
(no prior score) is sent exactly when it scores at least 70 with no hard
authority flag, or at least 80 regardless of flags; an Alerted token is
sent/updated exactly when the absolute score change reaches 10, or the
risk-flag set changed (order-independently) while the score is at least 70;
otherwise it is suppressed.  The spec's alert-state scenario (75 → Send,
83 → Suppress, 60 → Update) is checked concretely. -/
theorem shouldAlert_characterized :
    (∀ (r : ScoreResult) (flags : List String),
        ((shouldAlert defaultAlertConfig r none flags).shouldSend = true ↔
          (70 ≤ r.score ∧
            ¬ ("FULL_AUTHORITY_RISK" ∈ r.risk_flags ∨ "MINT_AUTHORITY_RISK" ∈ r.risk_flags ∨
               "FREEZE_AUTHORITY_RISK" ∈ r.risk_flags)) ∨ 80 ≤ r.score)) ∧
    (∀ (r : ScoreResult) (ls : Int) (flags : List String),
        ((shouldAlert defaultAlertConfig r (some ls) flags).shouldSend = true ↔
          10 ≤ |r.score - ls| ∨ (¬ List.Perm r.risk_flags flags ∧ 70 ≤ r.score))) ∧
    (shouldAlert defaultAlertConfig ⟨75, [], []⟩ none []).shouldSend = true ∧
    (shouldAlert defaultAlertConfig ⟨83, [], []⟩ (some 75) []).shouldSend = false ∧
    (shouldAlert defaultAlertConfig ⟨60, [], []⟩ (some 83) []).shouldSend = true := by
  refine ⟨?_, ?_, by rfl, by rfl, by rfl⟩
  · intro r flags
    rw [← hasHardFlags_iff]
    simp only [shouldAlert, defaultAlertConfig]
    split_ifs with h1 h2 <;> simp_all
  · intro r ls flags
    rw [← flagsChangedCheck_iff r.risk_flags flags, ← mathAbs_eq_abs]
    simp only [shouldAlert, defaultAlertConfig]
    split_ifs with h1 h2 <;> simp_all

/-- C5 counterexample -- the claim that a `seen` call leaves the eviction
order unchanged fails concretely: querying "a" in a cache holding ["a", "b"]
reorders it to ["b", "a"]. -/
theorem seen_mutates_recency_counterexample :
    ((hasSeenSignature ⟨10, ["a", "b"]⟩ "a").2).cache = ["b", "a"] ∧
    (⟨10, ["a", "b"]⟩ : LRUCache).cache = ["a", "b"] ∧
    (["b", "a"] : List String) ≠ ["a", "b"] := by
  refine ⟨by rfl, rfl, by decide⟩

/-- C5 amended -- the membership test leaves the cache unchanged for an
absent key, but promotes a present key to the most-recently-used end: the
queried key moves to the back while all other keys keep their relative
order. -/
theorem seen_promotes_present_key (c : LRUCache) (k : String) :
    (k ∉ c.cache → hasSeenSignature c k = (false, c)) ∧
    (c.cache.Nodup → k ∈ c.cache →
      (hasSeenSignature c k).1 = true ∧
      ((hasSeenSignature c k).2).cache = c.cache.erase k ++ [k] ∧
      ((hasSeenSignature c k).2).cache.filter (fun x => decide (x ≠ k)) =
        c.cache.filter (fun x => decide (x ≠ k)) ∧
      ((hasSeenSignature c k).2).cache.getLast? = some k ∧
      ((hasSeenSignature c k).2).maxSize = c.maxSize) := by
  constructor
  · intro h
    simp [hasSeenSignature, LRUCache.has, h]
  · intro hnd h
    refine ⟨by simp [hasSeenSignature, LRUCache.has, h],
            by simp [hasSeenSignature, LRUCache.has, h], ?_, ?_, ?_⟩
    · simp only [hasSeenSignature, LRUCache.has, if_pos h]
      rw [List.filter_append, hnd.erase_eq_filter]
      have h1 : List.filter (fun x => decide (x ≠ k)) [k] = [] := by simp
      rw [List.filter_filter, h1, List.append_nil]
      apply List.filter_congr
      intro x _
      by_cases hx : x = k <;> simp [hx]
    · simp only [hasSeenSignature, LRUCache.has, if_pos h]
      exact List.getLast?_concat _
    · simp [hasSeenSignature, LRUCache.has, h]

/-- Witness for `seen_promotes_present_key`. -/
theorem seen_promotes_present_key_witness :
    hasSeenSignature ⟨5, ["x", "y"]⟩ "w" = (false, ⟨5, ["x", "y"]⟩) ∧
    ((hasSeenSignature ⟨5, ["x", "y"]⟩ "y").2).cache = ["x", "y"].erase "y" ++ ["y"] := by
  exact ⟨(seen_promotes_present_key ⟨5, ["x", "y"]⟩ "w").1 (by decide),
         ((seen_promotes_present_key ⟨5, ["x", "y"]⟩ "y").2 (by decide) (by decide)).2.1⟩

/-- A run of fresh distinct keys that fits under capacity is appended in call
order, with no eviction. -/
theorem insertAll_fresh (keys : List String) : ∀ (c : LRUCache), keys.Nodup →
    (∀ k ∈ keys, k ∉ c.cache) → c.cache.length + keys.length ≤ c.maxSize →
    insertAll c keys = ⟨c.maxSize, c.cache ++ keys⟩ := by
  induction keys with
  | nil => intro c _ _ _; simp [insertAll]
  | cons k ks ih =>
    intro c hnd hfresh hlen
    have hk : k ∉ c.cache := hfresh k (by simp)
    have hcap : ¬ c.maxSize ≤ c.cache.length := by
      simp only [List.length_cons] at hlen
      omega
    have step : (checkAndMarkSignature c k).2 = ⟨c.maxSize, c.cache ++ [k]⟩ := by
      simp [checkAndMarkSignature, LRUCache.has, LRUCache.add, hk, hcap]
    have hrec : insertAll c (k :: ks) = insertAll ⟨c.maxSize, c.cache ++ [k]⟩ ks := by
      simp only [insertAll, List.foldl_cons]
      rw [show (checkAndMarkSignature c k).2 = ⟨c.maxSize, c.cache ++ [k]⟩ from step]
    rw [hrec, ih ⟨c.maxSize, c.cache ++ [k]⟩ (List.Nodup.of_cons hnd) ?_ ?_]
    · simp
    · intro x hx
      simp only [List.mem_append, List.mem_singleton]
      rintro (hmem | rfl)
      · exact hfresh x (List.mem_cons_of_mem _ hx) hmem
      · exact (List.nodup_cons.mp hnd).1 hx
    · simp only [List.length_append, List.length_cons, List.length_nil] at hlen ⊢
      omega

/-- C6 -- `checkAndMark` returns true exactly on the first sighting of a key
(recording it), false while the key is still cached; and filling an empty
cache of capacity `cap ≥ 1` with `cap + 1` distinct keys evicts exactly the
least-recently-used (first-inserted) key and nothing else. -/
theorem checkAndMark_first_sighting_and_lru_eviction :
    (∀ (c : LRUCache) (k : String), k ∉ c.cache →
        (checkAndMarkSignature c k).1 = true ∧ k ∈ ((checkAndMarkSignature c k).2).cache) ∧
    (∀ (c : LRUCache) (k : String), k ∈ c.cache →
        (checkAndMarkSignature c k).1 = false ∧ k ∈ ((checkAndMarkSignature c k).2).cache) ∧
    (∀ (cap : Nat) (keys : List String), keys.Nodup → keys.length = cap + 1 → 1 ≤ cap →
        (insertAll (LRUCache.empty cap) keys).cache = keys.drop 1) := by
  refine ⟨?_, ?_, ?_⟩
  · intro c k h
    constructor
    · simp [checkAndMarkSignature, LRUCache.has, h]
    · simp [checkAndMarkSignature, LRUCache.has, LRUCache.add, h]
      split_ifs <;> simp
  · intro c k h
    constructor
    · simp [checkAndMarkSignature, LRUCache.has, h]
    · simp [checkAndMarkSignature, LRUCache.has, h]
  · intro cap keys hnd hlen hcap
    have hne : keys ≠ [] := by
      intro h
      rw [h] at hlen
      simp at hlen
    have hsplit : keys.dropLast ++ [keys.getLast hne] = keys := List.dropLast_append_getLast hne
    have hndl : keys.dropLast.Nodup := hnd.sublist (List.dropLast_sublist keys)
    have hlast : keys.getLast hne ∉ keys.dropLast := by
      have hx := hnd
      rw [← hsplit] at hx
      have h2 := List.disjoint_of_nodup_append hx
      intro hmem
      exact h2 hmem (by simp)
    have hlenl : keys.dropLast.length = cap := by
      have := List.length_dropLast keys
      omega
    have hfill : insertAll (LRUCache.empty cap) keys.dropLast =
        ⟨cap, [] ++ keys.dropLast⟩ := by
      apply insertAll_fresh keys.dropLast (LRUCache.empty cap) hndl
      · intro x _
        simp [LRUCache.empty]
      · simp [LRUCache.empty, hlenl]
    have hstep : insertAll (LRUCache.empty cap) keys =
        (checkAndMarkSignature (insertAll (LRUCache.empty cap) keys.dropLast)
          (keys.getLast hne)).2 := by
      conv_lhs => rw [← hsplit]
      simp only [insertAll, List.foldl_append, List.foldl_cons, List.foldl_nil]
    rw [hstep, hfill]
    have hcm : checkAndMarkSignature (⟨cap, [] ++ keys.dropLast⟩ : LRUCache) (keys.getLast hne) =
        (true, LRUCache.add ⟨cap, [] ++ keys.dropLast⟩ (keys.getLast hne)) := by
      simp [checkAndMarkSignature, LRUCache.has, hlast]
    have hadd : LRUCache.add (⟨cap, [] ++ keys.dropLast⟩ : LRUCache) (keys.getLast hne) =
        ⟨cap, keys.dropLast.drop 1 ++ [keys.getLast hne]⟩ := by
      simp [LRUCache.add, hlast, hlenl]
    rw [hcm, hadd]
    have hdrop : (keys.dropLast.drop 1) ++ [keys.getLast hne] = keys.drop 1 := by
      conv_rhs => rw [← hsplit]
      rw [List.drop_append_of_le_length (by omega)]
    simpa using hdrop

/-- Witness for `checkAndMark_first_sighting_and_lru_eviction`: three distinct
keys into a capacity-2 cache evict exactly the first. -/
theorem checkAndMark_first_sighting_witness :
    (checkAndMarkSignature ⟨3, ["p"]⟩ "q").1 = true ∧
    (checkAndMarkSignature ⟨3, ["p"]⟩ "p").1 = false ∧
    (insertAll (LRUCache.empty 2) ["k1", "k2", "k3"]).cache = ["k2", "k3"] := by
  refine ⟨(checkAndMark_first_sighting_and_lru_eviction.1 ⟨3, ["p"]⟩ "q" (by decide)).1,
          (checkAndMark_first_sighting_and_lru_eviction.2.1 ⟨3, ["p"]⟩ "p" (by decide)).1, ?_⟩
  have h := checkAndMark_first_sighting_and_lru_eviction.2.2 2 ["k1", "k2", "k3"]
    (by decide) (by decide) (by decide)
  rw [h]
  rfl

/-- `jsStrOr` (JS `||` on strings) is associative. -/
theorem jsStrOr_assoc (a b c : Option String) :
    jsStrOr (jsStrOr a b) c = jsStrOr a (jsStrOr b c) := by
  cases a with
  | none => rfl
  | some s =>
    by_cases hs : s = "" <;> simp [jsStrOr, hs]

/-- The transfer loop's subject mint is the mint of the LAST transfer whose
asset is outside the quote set (each non-quote transfer overwrites the
provisional choice). -/
theorem foldl_swapTransferStep_tokenMint (fp : Option String) (ts : List TokenTransfer) :
    ∀ acc : SwapParseAcc,
      (ts.foldl (swapTransferStep fp) acc).tokenMint =
        match (ts.filter (fun t => ¬ isQuoteMint t.mint)).getLast? with
        | some t => some t.mint
        | none => acc.tokenMint := by
  induction ts with
  | nil => intro acc; simp
  | cons t ts ih =>
    intro acc
    by_cases hq : isQuoteMint t.mint = true
    · have hstep : (swapTransferStep fp acc t).tokenMint = acc.tokenMint := by
        rw [swapTransferStep, if_pos hq]
        cases t.tokenAmount with
        | none => rfl
        | some a =>
          by_cases ha : a = 0 <;> simp [ha]
      rw [List.foldl_cons, ih, List.filter_cons_of_neg (by simp [hq]), hstep]
    · have hstep : (swapTransferStep fp acc t).tokenMint = some t.mint := by
        rw [swapTransferStep, if_neg hq]
        split_ifs <;> rfl
      rw [List.foldl_cons, ih, List.filter_cons_of_pos (by simp [hq])]
      cases hfil : ts.filter (fun t => ¬ isQuoteMint t.mint) with
      | nil => simp [hstep]
      | cons u us =>
        rw [List.getLast?_cons_cons]
        cases hl : (u :: us).getLast? with
        | none =>
          have hs : (u :: us).getLast?.isSome := (List.getLast?_isSome).mpr (by simp)
          rw [hl] at hs
          simp at hs
        | some w => rfl

/-- C3 counterexample -- on a swap with two non-quote transfers ("MemeA" then
"MemeB"), extraction reports "MemeB" as the subject token, not the FIRST
non-quote transfer "MemeA" that the claim prescribes. -/
theorem first_nonquote_subject_counterexample :
    (parseSwapTransaction 0 txTwoSubjects).map SwapRecord.token_mint = some "MemeB" ∧
    ((txTwoSubjects.tokenTransfers.filter
        (fun t => ¬ isQuoteMint t.mint)).head?).map TokenTransfer.mint = some "MemeA" ∧
    ("MemeB" : String) ≠ "MemeA" := by
  refine ⟨by rfl, by rfl, by decide⟩

/-- C3 amended -- the subject token of swap extraction is the LAST transfer
whose asset is outside the quote set (the loop overwrites the provisional
subject on every non-quote transfer), falling back to the first parsed
swap-event output/input mint; the extraction returns no record exactly when
no (truthy) subject was identified or the identified subject is itself a
quote asset. -/
theorem parseSwap_subject_is_last_nonquote (nowMs : ℚ) (tx : RawTx) :
    (parseSwapTransaction nowMs tx).map SwapRecord.token_mint = specSubjectResult tx := by
  have hlnq : (tx.tokenTransfers.foldl (swapTransferStep tx.feePayer) swapParseAccInit).tokenMint
      = lastNonQuoteMint tx.tokenTransfers := by
    rw [foldl_swapTransferStep_tokenMint, lastNonQuoteMint]
    cases (tx.tokenTransfers.filter (fun t => ¬ isQuoteMint t.mint)).getLast? <;> rfl
  rw [parseSwapTransaction, specSubjectResult, swapEventFallbackMint]
  cases hev : tx.eventsSwap with
  | none =>
    simp only [hlnq]
    cases hm : lastNonQuoteMint tx.tokenTransfers with
    | none => rfl
    | some m =>
      by_cases h1 : m = "" <;> by_cases h2 : isQuoteMint m = true <;>
        simp [jsStrOr, h1, h2]
  | some ev =>
    simp only [hlnq, jsStrOr_assoc]
    cases hm : jsStrOr (lastNonQuoteMint tx.tokenTransfers)
        (jsStrOr ((ev.tokenOutputs.head?).map SwapEventLeg.mint)
          ((ev.tokenInputs.head?).map SwapEventLeg.mint)) with
    | none => rfl
    | some m =>
      by_cases h1 : m = "" <;> by_cases h2 : isQuoteMint m = true <;>
        simp [h1, h2]

/-- C4 -- evaluation of the aggregation at the failing input: a single swap
10 minutes old (ts 0, `now` 600000 ms) carrying a seller.  Its timestamp is
strictly before the 5-minute cutoff — it is correctly excluded from
`swaps_5m` — yet its seller is counted in `unique_sellers_5m`, because the
source adds the seller to the 5-minute set inside the 15-minute block
(supabase.js:286).  The claimed all-zero snapshot for an empty swap list does
hold. -/
theorem sellers5m_counts_swap_outside_window :
    (getSwapMetrics 600000 [oldSellRow]).unique_sellers_5m = 1 ∧
    (getSwapMetrics 600000 [oldSellRow]).swaps_5m = 0 ∧
    (getSwapMetrics 600000 [oldSellRow]).swaps_15m = 1 ∧
    oldSellRow.ts < 600000 - 300000 ∧
    getSwapMetrics 600000 [] = zeroSwapMetrics := by
  have hS : ¬ ("S" : String) = "" := by decide
  refine ⟨?_, ?_, ?_, by norm_num [oldSellRow], by rfl⟩ <;>
    norm_num [getSwapMetrics, swapMetricsStep, swapMetricsAccInit, addParticipant,
      oldSellRow, jsOrQ, hS]

/-- C9 -- the per-token alert row survives both a Suppress decision and a
failed dispatch untouched: when the decision is not to send, `sendTokenAlert`
is never invoked; when it is invoked but neither the edit nor the (fallback)
send produced a message, the row is returned unchanged; conversely any change
to the row requires a Send/Update decision together with a successful edit or
send outcome. -/
theorem alertState_unchanged_unless_dispatch_succeeds :
    ∀ (env : DispatchEnv) (cfg : AlertConfig) (alert : AlertRecord) (r : ScoreResult) (nowMs : ℚ),
      ((shouldAlert cfg r alert.last_score ((alert.last_risk_flags).getD [])).shouldSend = false →
        processAlertTransition env cfg alert r nowMs = alert) ∧
      (env.editResult = none → env.sendResult = none →
        sendTokenAlert env alert r nowMs = alert) ∧
      (processAlertTransition env cfg alert r nowMs ≠ alert →
        (shouldAlert cfg r alert.last_score ((alert.last_risk_flags).getD [])).shouldSend = true ∧
        (env.editResult ≠ none ∨ env.sendResult ≠ none)) := by
  intro env cfg alert r nowMs
  have hsupp : (shouldAlert cfg r alert.last_score
        ((alert.last_risk_flags).getD [])).shouldSend = false →
      processAlertTransition env cfg alert r nowMs = alert := by
    intro h
    simp [processAlertTransition, h]
  have hfail : env.editResult = none → env.sendResult = none →
      sendTokenAlert env alert r nowMs = alert := by
    intro h1 h2
    rw [sendTokenAlert]
    split_ifs with hc he
    · simp only [h1, h2]
      split_ifs <;> rfl
    · rfl
    · rfl
  refine ⟨hsupp, hfail, ?_⟩
  intro hne
  constructor
  · by_contra hdec
    rw [Bool.not_eq_true] at hdec
    exact hne (hsupp hdec)
  · by_contra hboth
    push_neg at hboth
    apply hne
    rw [processAlertTransition]
    split_ifs with hd
    · exact hfail hboth.1 hboth.2
    · rfl

/-- Witness for `alertState_unchanged_unless_dispatch_succeeds`: a Suppress
decision (score 10) and a doubly-failed dispatch each leave the empty alert
row unchanged, and an actual state change exhibits a send outcome. -/
theorem alertState_unchanged_witness :
    processAlertTransition ⟨some "c", true, none, none⟩ defaultAlertConfig
      ⟨none, none, none, none, none, none⟩ ⟨10, [], []⟩ 0 =
      (⟨none, none, none, none, none, none⟩ : AlertRecord) ∧
    sendTokenAlert ⟨some "c", true, none, none⟩
      ⟨none, none, none, none, none, none⟩ ⟨10, [], []⟩ 0 =
      (⟨none, none, none, none, none, none⟩ : AlertRecord) ∧
    ((shouldAlert defaultAlertConfig ⟨75, [], []⟩
        ((⟨none, none, none, none, none, none⟩ : AlertRecord).last_score)
        (((⟨none, none, none, none, none, none⟩ : AlertRecord).last_risk_flags).getD [])).shouldSend = true ∧
      ((⟨some "c", true, none, some "7"⟩ : DispatchEnv).editResult ≠ none ∨
        (⟨some "c", true, none, some "7"⟩ : DispatchEnv).sendResult ≠ none)) := by
  refine ⟨?_, ?_, ?_⟩
  · exact (alertState_unchanged_unless_dispatch_succeeds ⟨some "c", true, none, none⟩
      defaultAlertConfig ⟨none, none, none, none, none, none⟩ ⟨10, [], []⟩ 0).1 (by rfl)
  · exact (alertState_unchanged_unless_dispatch_succeeds ⟨some "c", true, none, none⟩
      defaultAlertConfig ⟨none, none, none, none, none, none⟩ ⟨10, [], []⟩ 0).2.1 rfl rfl
  · exact (alertState_unchanged_unless_dispatch_succeeds ⟨some "c", true, none, some "7"⟩
      defaultAlertConfig ⟨none, none, none, none, none, none⟩ ⟨75, [], []⟩ 0).2.2 (by decide)
